import Mathlib

set_option maxHeartbeats 1000000

/-!
Shallow embedding of the `nc_api` backend.

Embedded from the source files:
  * `app/routes/user_routes.py` — the HTTP route handlers (the authority for
    route behaviour: body checks, schema validation, status codes, messages,
    which service calls sit inside a `try` block).
  * `app/models/user.py` — the `User` row and its `to_dict` serialisation.
  * `app/services/course/get_courses.py` — the course-service functions.

The user-service layer (`create_user`, `get_user_by_username`,
`complete_onboarding`, …), the request schemas and the crypto/token helpers
are not part of the source tree; they are modelled from the specification and
marked as such in their doc comments.  Route handlers are parameterised over a
`Services` record so that service-level failures (Python exceptions) can be
injected; `Except.error` models an exception propagating out of a handler that
does not catch it.
-/

/-- JSON values as delivered by `request.get_json`. -/
inductive JVal where
  | jnull : JVal
  | jbool : Bool → JVal
  | jnum : Int → JVal
  | jstr : String → JVal
  | jarr : List JVal → JVal
  | jobj : List (String × JVal) → JVal

/-- Python truthiness of a JSON value (`if not data`, `if not course_id`). -/
def JVal.truthy : JVal → Bool
  | .jnull => false
  | .jbool b => b
  | .jnum n => n != 0
  | .jstr s => s != ""
  | .jarr xs => !xs.isEmpty
  | .jobj fs => !fs.isEmpty

/-- Python `data.get(key)`: the value stored under `key`, `None` if absent. -/
def JVal.getKey : JVal → String → JVal
  | .jobj fs, k =>
    match fs.find? (fun kv => kv.1 == k) with
    | some kv => kv.2
    | none => .jnull
  | _, _ => .jnull

/-- Equality test between a JSON value and a string column (SQL `column = v`):
only the equal string matches; `null` and non-strings match no row. -/
def JVal.matchesStr : JVal → String → Bool
  | .jstr s, t => s == t
  | _, _ => false

/-- The body handed to a handler: `none` models a missing or unparsable JSON
body (`request.get_json(silent=True)` returned `None`). -/
def dataTruthy : Option JVal → Bool
  | none => false
  | some v => v.truthy

/-- The parsed body, `null` standing in for Python `None`. -/
def getBody : Option JVal → JVal
  | none => .jnull
  | some v => v

/-- Row of the `users` table (`app/models/user.py`). -/
structure User where
  id : Nat
  username : String
  email : String
  password_hash : String
  onboarding_done : Bool
  used_in_collaborative : Bool

/-- Serialisation `User.to_dict` from `app/models/user.py`. -/
def User.to_dict (u : User) : List (String × JVal) :=
  [("id", JVal.jnum u.id),
   ("username", JVal.jstr u.username),
   ("email", JVal.jstr u.email),
   ("onboarding_done", JVal.jbool u.onboarding_done),
   ("used_in_collaborative", JVal.jbool u.used_in_collaborative)]

/-- Modelled from the spec: a persisted onboarding-preference row
(`UserPreferences` belongs to one user; key → value pairs coming from the
subject/level lists of the onboarding payload). -/
structure PrefRow where
  user_id : Nat
  key : String
  value : String

/-- Modelled from the spec: serialisation of a preference row. -/
def PrefRow.to_dict (p : PrefRow) : List (String × JVal) :=
  [("user_id", JVal.jnum p.user_id),
   ("key", JVal.jstr p.key),
   ("value", JVal.jstr p.value)]

/-- Modelled from the spec: a `UserInteraction` row (course reference,
interaction type, timestamp, owned by one user). -/
structure Interaction where
  id : Nat
  user_id : Nat
  course_id : JVal
  interaction_type : JVal
  timestamp : Nat

/-- Modelled from the spec: `Interaction.to_dict`, the dict shape returned to
clients (includes the `user_id` key, which `/me` strips). -/
def Interaction.to_dict (i : Interaction) : List (String × JVal) :=
  [("id", JVal.jnum i.id),
   ("user_id", JVal.jnum i.user_id),
   ("course_id", i.course_id),
   ("interaction_type", i.interaction_type),
   ("timestamp", JVal.jnum i.timestamp)]

/-- The relational state behind the user service. -/
structure DbState where
  users : List User
  prefs : List PrefRow
  interactions : List Interaction
  nextUserId : Nat
  nextInteractionId : Nat
  clock : Nat

/-- The JSON response envelope together with the HTTP status code. -/
structure Response where
  code : Nat
  status : String
  message : String
  data : JVal

/-- The `400 No data provided` envelope shared by the body checks. -/
def noDataResp : Response :=
  ⟨400, "error", "No data provided", JVal.jobj []⟩

/-- Result of running a handler: `Except.error (e, s)` is a Python exception
`e` escaping the handler uncaught, with the database in state `s`. -/
abbrev HResult := Except (String × DbState) (Response × DbState)

/-- The service layer the routes call into.  Every call may raise
(`Except.error`); state-changing calls return the new `DbState`. -/
structure Services where
  create_user : DbState → JVal → JVal → JVal → Except String (User × DbState)
  get_user_by_username : DbState → JVal → Except String (Option User)
  get_user_by_id : DbState → Nat → Except String (Option User)
  get_password_hash_by_username : DbState → JVal → Except String (Option String)
  get_user_preferences : DbState → Nat → Except String (List PrefRow)
  get_user_interactions : DbState → Nat → Except String (List Interaction)
  complete_onboarding : DbState → Nat → JVal → Except String DbState
  reset_onboarding : DbState → Nat → Except String DbState
  add_user_interaction : DbState → Nat → JVal → JVal → Except String (Interaction × DbState)
  delete_user_interaction_by_id : DbState → Nat → Except String (String × DbState)
  verify_password : JVal → String → Bool
  create_access_token : String → Int → JVal

/-- Modelled from the spec: the register request schema
(`app/models/user_schema.py` is absent from the tree) — an object with string
`username`, `email` and `password` members. -/
def validRegisterPayload (data : JVal) : Bool :=
  match data with
  | .jobj _ =>
    (match data.getKey "username" with | .jstr _ => true | _ => false) &&
    (match data.getKey "email" with | .jstr _ => true | _ => false) &&
    (match data.getKey "password" with | .jstr _ => true | _ => false)
  | _ => false

/-- Modelled from the spec: the schema-validation message for a bad register
payload (stands in for the `jsonschema` error message). -/
def registerSchemaMsg : String :=
  "payload does not conform to the register schema"

/-- Modelled from the spec: the onboarding preference schema
(`app/models/user_preference_schema.py` is absent from the tree) — an object
whose `preferences` member is an object of string lists. -/
def validPrefPayload (data : Option JVal) : Bool :=
  match data with
  | some (.jobj fs) =>
    match fs.find? (fun kv => kv.1 == "preferences") with
    | some kv =>
      match kv.2 with
      | .jobj ps => ps.all (fun p =>
          match p.2 with
          | .jarr vs => vs.all (fun v => match v with | .jstr _ => true | _ => false)
          | _ => false)
      | _ => false
    | none => false
  | _ => false

/-- Modelled from the spec: the `jsonschema` error message for a payload (or a
`None` body) that fails the preference schema. -/
def prefSchemaMsg : String :=
  "payload does not conform to the preference schema"

/-- Modelled from the spec: `jsonschema.validate(instance=data, schema=...)`
for the preference schema — raises (`Except.error`) on mismatch. -/
def validatePrefs (data : Option JVal) : Except String Unit :=
  if validPrefPayload data then .ok () else .error prefSchemaMsg

/-- Python `timedelta(days=d)` measured in seconds. -/
def timedeltaDays (d : Int) : Int := d * 86400

/-- Route `POST /register` (`register_user` in `app/routes/user_routes.py`):
body check, schema validation (a failure here returns 400 directly — the
`validate` call is outside any `try`), then `create_user` inside a `try`. -/
def register_user (svc : Services) (s : DbState) (body : Option JVal) : HResult :=
  if !dataTruthy body then .ok (noDataResp, s) else
  let data := getBody body
  if !validRegisterPayload data then
    .ok (⟨400, "error", "Invalid payload: " ++ registerSchemaMsg, JVal.jobj []⟩, s)
  else
    match svc.create_user s (data.getKey "username") (data.getKey "email")
        (data.getKey "password") with
    | .ok (user, s1) =>
      .ok (⟨201, "success", "User registered successfully", JVal.jobj user.to_dict⟩, s1)
    | .error e =>
      .ok (⟨500, "error", "Error creating user: " ++ e, JVal.jobj []⟩, s)

/-- Route `POST /login` (`login_user`): body check, hash and user lookup, password
check, token issuance.  There is no `try` block in this handler, so a service
exception escapes uncaught (`Except.error`).  A user row that is `None` while
a hash exists hits `user['username']` and raises a `TypeError`. -/
def login_user (svc : Services) (s : DbState) (body : Option JVal) : HResult :=
  if !dataTruthy body then .ok (noDataResp, s) else
  let data := getBody body
  let username := data.getKey "username"
  let password := data.getKey "password"
  match svc.get_password_hash_by_username s username with
  | .error e => .error (e, s)
  | .ok password_hash =>
  match svc.get_user_by_username s username with
  | .error e => .error (e, s)
  | .ok user =>
  if !(match password_hash with | some h => h != "" | none => false) then
    .ok (⟨404, "error", "User not found", JVal.jobj []⟩, s)
  else if !svc.verify_password password ((password_hash).getD "") then
    .ok (⟨401, "error", "Invalid password", JVal.jobj []⟩, s)
  else
    match user with
    | none => .error ("TypeError: NoneType object is not subscriptable", s)
    | some u =>
      .ok (⟨200, "success", "Login successful",
        JVal.jobj
          [("access_token", svc.create_access_token u.username (timedeltaDays 3)),
           ("user", JVal.jobj
             [("id", JVal.jnum u.id),
              ("username", JVal.jstr u.username),
              ("email", JVal.jstr u.email)])]⟩, s)

/-- Body of the `try` block of `GET /me` (`get_current_user`). -/
def me_try (svc : Services) (s : DbState) (ident : String) : HResult :=
  match svc.get_user_by_username s (JVal.jstr ident) with
  | .error e => .error (e, s)
  | .ok none => .ok (⟨404, "error", "User not found", JVal.jobj []⟩, s)
  | .ok (some user) =>
  match svc.get_user_preferences s user.id with
  | .error e => .error (e, s)
  | .ok user_preferences =>
  match svc.get_user_interactions s user.id with
  | .error e => .error (e, s)
  | .ok user_interactions =>
    let shown := user_interactions.map
      (fun i => JVal.jobj ((i.to_dict).filter (fun kv => kv.1 != "user_id")))
    .ok (⟨200, "success", "User retrieved successfully",
      JVal.jobj
        [("user", JVal.jobj user.to_dict),
         ("preferences", JVal.jarr (user_preferences.map (fun p => JVal.jobj p.to_dict))),
         ("interactions", JVal.jarr shown)]⟩, s)

/-- Route `GET /me`: the whole handler body sits in a `try`, so any exception is
turned into the 500 envelope. -/
def get_current_user (svc : Services) (s : DbState) (ident : String) : HResult :=
  match me_try svc s ident with
  | .error (e, s1) =>
    .ok (⟨500, "error", "Error retrieving user: " ++ e, JVal.jobj []⟩, s1)
  | .ok r => .ok r

/-- Body of the `try` block of `POST /onboarding` (`complete_user_onboarding`).
Note the source order: the `validate` call runs before the `if not data`
check, and both sit inside the `try` — a `ValidationError` is therefore
caught by the generic handler, not answered with a 400. -/
def complete_onboarding_try (svc : Services) (s : DbState) (ident : String)
    (body : Option JVal) : HResult :=
  match svc.get_user_by_username s (JVal.jstr ident) with
  | .error e => .error (e, s)
  | .ok none => .ok (⟨404, "error", "User not found", JVal.jobj []⟩, s)
  | .ok (some user) =>
  if user.onboarding_done then
    .ok (⟨400, "error", "Onboarding already completed", JVal.jobj user.to_dict⟩, s)
  else
  match validatePrefs body with
  | .error e => .error (e, s)
  | .ok _ =>
  if !dataTruthy body then
    .ok (⟨400, "error", "Invalid payload", JVal.jobj []⟩, s)
  else
  match svc.complete_onboarding s user.id (getBody body) with
  | .error e => .error (e, s)
  | .ok s1 =>
  match svc.get_user_by_id s1 user.id with
  | .error e => .error (e, s1)
  | .ok user1 =>
  match svc.get_user_preferences s1 user.id with
  | .error e => .error (e, s1)
  | .ok prefs1 =>
    .ok (⟨200, "success", "Onboarding completed successfully",
      JVal.jobj
        [("user", match user1 with | some u => JVal.jobj u.to_dict | none => JVal.jnull),
         ("preferences", JVal.jarr (prefs1.map (fun p => JVal.jobj p.to_dict)))]⟩, s1)

/-- Route `POST /onboarding`: the `try` wrapper around `complete_onboarding_try`. -/
def complete_user_onboarding (svc : Services) (s : DbState) (ident : String)
    (body : Option JVal) : HResult :=
  match complete_onboarding_try svc s ident body with
  | .error (e, s1) =>
    .ok (⟨500, "error", "Error completing onboarding: " ++ e, JVal.jobj []⟩, s1)
  | .ok r => .ok r

/-- Body of the `try` block of `DELETE /onboarding` (`reset_user_onboarding`). -/
def reset_onboarding_try (svc : Services) (s : DbState) (ident : String) : HResult :=
  match svc.get_user_by_username s (JVal.jstr ident) with
  | .error e => .error (e, s)
  | .ok none => .ok (⟨404, "error", "User not found", JVal.jobj []⟩, s)
  | .ok (some user) =>
  if !user.onboarding_done then
    .ok (⟨400, "error", "Onboarding not completed yet", JVal.jobj user.to_dict⟩, s)
  else
  match svc.reset_onboarding s user.id with
  | .error e => .error (e, s)
  | .ok s1 =>
  match svc.get_user_by_id s1 user.id with
  | .error e => .error (e, s1)
  | .ok user1 =>
  match svc.get_user_preferences s1 user.id with
  | .error e => .error (e, s1)
  | .ok prefs1 =>
    .ok (⟨200, "success", "Onboarding reset successfully",
      JVal.jobj
        [("user", match user1 with | some u => JVal.jobj u.to_dict | none => JVal.jnull),
         ("preferences", JVal.jarr (prefs1.map (fun p => JVal.jobj p.to_dict)))]⟩, s1)

/-- Route `DELETE /onboarding`: the `try` wrapper around `reset_onboarding_try`. -/
def reset_user_onboarding (svc : Services) (s : DbState) (ident : String) : HResult :=
  match reset_onboarding_try svc s ident with
  | .error (e, s1) =>
    .ok (⟨500, "error", "Error resetting onboarding: " ++ e, JVal.jobj []⟩, s1)
  | .ok r => .ok r

/-- Route `POST /interactions` (`log_user_interaction`): the body check, the user
lookup and the `course_id`/`interaction_type` truthiness check all run before
the `try` block (so an exception in the user lookup escapes uncaught); only
`add_user_interaction` is protected. -/
def log_user_interaction (svc : Services) (s : DbState) (ident : String)
    (body : Option JVal) : HResult :=
  if !dataTruthy body then .ok (noDataResp, s) else
  let data := getBody body
  match svc.get_user_by_username s (JVal.jstr ident) with
  | .error e => .error (e, s)
  | .ok none => .ok (⟨404, "error", "User not found", JVal.jobj []⟩, s)
  | .ok (some user) =>
  let course_id := data.getKey "course_id"
  let interaction_type := data.getKey "interaction_type"
  if !course_id.truthy || !interaction_type.truthy then
    .ok (⟨400, "error", "Missing course_id or interaction_type", JVal.jobj []⟩, s)
  else
    match svc.add_user_interaction s user.id course_id interaction_type with
    | .ok (interaction, s1) =>
      .ok (⟨201, "success", "Interaction logged successfully",
        JVal.jobj interaction.to_dict⟩, s1)
    | .error e =>
      .ok (⟨500, "error", "Error logging interaction: " ++ e, JVal.jobj []⟩, s)

/-- Body of the `try` block of `DELETE /interactions/<id>`
(`delete_user_interaction`). -/
def delete_interaction_try (svc : Services) (s : DbState) (ident : String)
    (interaction_id : Nat) : HResult :=
  match svc.get_user_by_username s (JVal.jstr ident) with
  | .error e => .error (e, s)
  | .ok none => .ok (⟨404, "error", "User not found", JVal.jobj []⟩, s)
  | .ok (some _) =>
  match svc.delete_user_interaction_by_id s interaction_id with
  | .error e => .error (e, s)
  | .ok (msg, s1) => .ok (⟨200, "success", msg, JVal.jobj []⟩, s1)

/-- Route `DELETE /interactions/<id>`: the `try` wrapper. -/
def delete_user_interaction (svc : Services) (s : DbState) (ident : String)
    (interaction_id : Nat) : HResult :=
  match delete_interaction_try svc s ident interaction_id with
  | .error (e, s1) =>
    .ok (⟨500, "error", "Error deleting interaction: " ++ e, JVal.jobj []⟩, s1)
  | .ok r => .ok r

/-- Modelled from the spec: `get_user_by_username` — first `users` row whose
`username` column equals the given value. -/
def findUserByUsername (s : DbState) (v : JVal) : Option User :=
  s.users.find? (fun u => v.matchesStr u.username)

/-- Modelled from the spec: `get_user_by_id`. -/
def findUserById (s : DbState) (uid : Nat) : Option User :=
  s.users.find? (fun u => u.id == uid)

/-- Modelled from the spec: `create_user` — checks username/email uniqueness,
hashes the password with the (external) hash function, persists the row with
both flags defaulting to `false`. -/
def spec_create_user (hashF : JVal → String) (s : DbState)
    (username email password : JVal) : Except String (User × DbState) :=
  match username, email with
  | .jstr un, .jstr em =>
    if s.users.any (fun u => u.username == un || u.email == em) then
      .error "username or email already taken"
    else
      let u : User := ⟨s.nextUserId, un, em, hashF password, false, false⟩
      .ok (u, { s with users := s.users ++ [u], nextUserId := s.nextUserId + 1 })
  | _, _ => .error "invalid username or email"

/-- Modelled from the spec: the preference rows persisted by
`complete_onboarding` from the payload's `preferences` object — one row per
value of each key's list. -/
def prefRowsOf (uid : Nat) (data : JVal) : List PrefRow :=
  match data.getKey "preferences" with
  | .jobj ps => ps.flatMap (fun kv =>
      match kv.2 with
      | .jarr vs => vs.filterMap (fun v =>
          match v with
          | .jstr sv => some ⟨uid, kv.1, sv⟩
          | _ => none)
      | _ => [])
  | _ => []

/-- The database state after `complete_onboarding(user_id, data)`: the user's
flag set and the payload's preference rows appended. -/
def onboardedState (s : DbState) (uid : Nat) (data : JVal) : DbState :=
  { s with
    users := s.users.map
      (fun u => if u.id == uid then { u with onboarding_done := true } else u),
    prefs := s.prefs ++ prefRowsOf uid data }

/-- Modelled from the spec: `complete_onboarding(user_id, data)` — persists
the preference rows and sets `onboarding_done = true`. -/
def spec_complete_onboarding (s : DbState) (uid : Nat) (data : JVal) :
    Except String DbState :=
  .ok (onboardedState s uid data)

/-- The database state after `reset_onboarding(user_id)`: the user's flag
cleared and the user's preference rows deleted. -/
def resetState (s : DbState) (uid : Nat) : DbState :=
  { s with
    users := s.users.map
      (fun u => if u.id == uid then { u with onboarding_done := false } else u),
    prefs := s.prefs.filter (fun p => p.user_id != uid) }

/-- Modelled from the spec: `reset_onboarding(user_id)` — deletes the user's
preference rows and sets `onboarding_done = false`. -/
def spec_reset_onboarding (s : DbState) (uid : Nat) : Except String DbState :=
  .ok (resetState s uid)

/-- Modelled from the spec: `add_user_interaction` — persists a new
interaction row for the user, stamped with the current time. -/
def spec_add_user_interaction (s : DbState) (uid : Nat)
    (course_id interaction_type : JVal) : Except String (Interaction × DbState) :=
  let i : Interaction := ⟨s.nextInteractionId, uid, course_id, interaction_type, s.clock⟩
  .ok (i, { s with interactions := s.interactions ++ [i],
                   nextInteractionId := s.nextInteractionId + 1 })

/-- Modelled from the spec: `delete_user_interaction_by_id` — removes the row
(if any) and reports a message. -/
def spec_delete_interaction (s : DbState) (iid : Nat) :
    Except String (String × DbState) :=
  .ok ("Interaction deleted successfully",
       { s with interactions := s.interactions.filter (fun i => i.id != iid) })

/-- Modelled from the spec: the token issuer — records the identity and the
expiry delta (in seconds) it was asked for. -/
def spec_create_access_token (ident : String) (secs : Int) : JVal :=
  JVal.jobj [("identity", JVal.jstr ident), ("expires_delta_seconds", JVal.jnum secs)]

/-- Modelled from the spec: the user-service layer, parameterised by the
external password hash and verify functions. -/
def specServices (hashF : JVal → String) (verifyF : JVal → String → Bool) : Services where
  create_user := spec_create_user hashF
  get_user_by_username := fun s v => .ok (findUserByUsername s v)
  get_user_by_id := fun s uid => .ok (findUserById s uid)
  get_password_hash_by_username := fun s v =>
    .ok ((findUserByUsername s v).map (fun u => u.password_hash))
  get_user_preferences := fun s uid => .ok (s.prefs.filter (fun p => p.user_id == uid))
  get_user_interactions := fun s uid =>
    .ok (s.interactions.filter (fun i => i.user_id == uid))
  complete_onboarding := spec_complete_onboarding
  reset_onboarding := spec_reset_onboarding
  add_user_interaction := spec_add_user_interaction
  delete_user_interaction_by_id := spec_delete_interaction
  verify_password := verifyF
  create_access_token := spec_create_access_token

/-- Row of the `courses` table.  Modelled from the spec for the fields beyond
`course_id` and `subject` (only those two are used by the source). -/
structure Course where
  course_id : Nat
  subject : String
  title : String
deriving DecidableEq

/-- Modelled from the spec: `Course.to_dict`. -/
def Course.to_dict (c : Course) : List (String × JVal) :=
  [("course_id", JVal.jnum c.course_id),
   ("subject", JVal.jstr c.subject),
   ("title", JVal.jstr c.title)]

/-- The fixed subject list of `get_random_courses`
(`app/services/course/get_courses.py`). -/
def subjects : List String :=
  ["Business Finance", "Graphics Design", "Web Development", "Musical Instruments"]

/-- One subject's query in `get_random_courses`:
`Course.query.filter_by(subject=subject).order_by(db.func.random()).limit(n)`.
The database's random ordering is the `perm` parameter. -/
def subjectBlock (perm : List Course → List Course) (db : List Course) (n : Nat)
    (subj : String) : List Course :=
  (perm (db.filter (fun c => c.subject == subj))).take n

/-- The rows gathered by the `get_random_courses` loop, before serialisation. -/
def random_course_rows (perm : List Course → List Course) (db : List Course)
    (n : Nat) : List Course :=
  subjects.flatMap (fun subj => subjectBlock perm db n subj)

/-- Function `get_random_courses` from `app/services/course/get_courses.py`: for each
fixed subject, a randomly ordered query limited to `n`, serialised and
concatenated in subject order. -/
def get_random_courses (perm : List Course → List Course) (db : List Course)
    (n : Nat) : List (List (String × JVal)) :=
  subjects.flatMap (fun subj => (subjectBlock perm db n subj).map Course.to_dict)

/-- Function `get_recommended_courses_by_course_id` from
`app/services/course/get_courses.py`: resolves each id produced by the
recommendation lookup (`recs`, external) to a course, skipping ids with no
matching row. -/
def get_recommended_courses_by_course_id (recs : Nat → Nat → List Nat)
    (db : List Course) (course_id n : Nat) : List (List (String × JVal)) :=
  (recs course_id n).filterMap
    (fun cid => (db.find? (fun c => c.course_id == cid)).map Course.to_dict)

/-- A course found in a subject's randomly ordered query block lies in the
table and carries that subject. -/
lemma mem_subjectBlock (perm : List Course → List Course) (db : List Course)
    (n : Nat) (subj : String) (hperm : ∀ l, (perm l).Perm l) (c : Course)
    (hc : c ∈ subjectBlock perm db n subj) : c ∈ db ∧ c.subject = subj := by
  have h1 : c ∈ perm (db.filter (fun c => c.subject == subj)) :=
    List.take_subset _ _ hc
  have h2 : c ∈ db.filter (fun c => c.subject == subj) :=
    ((hperm _).mem_iff).mp h1
  have h3 := List.mem_filter.mp h2
  exact ⟨h3.1, by have := h3.2; simpa using this⟩

/-- A subject's block holds at most `n` courses (the query's `limit(n)`). -/
lemma subjectBlock_length_le (perm : List Course → List Course) (db : List Course)
    (n : Nat) (subj : String) : (subjectBlock perm db n subj).length ≤ n := by
  unfold subjectBlock
  rw [List.length_take]
  exact min_le_left _ _

/-- Filtering a subject's block by a different subject gives nothing. -/
lemma subjectBlock_filter_other (perm : List Course → List Course) (db : List Course)
    (n : Nat) (subj other : String) (hperm : ∀ l, (perm l).Perm l)
    (hne : other ≠ subj) :
    (subjectBlock perm db n subj).filter (fun c => c.subject == other) = [] := by
  apply List.filter_eq_nil_iff.mpr
  intro c hc
  have hsub := (mem_subjectBlock perm db n subj hperm c hc).2
  simp [hsub]
  exact fun h => hne h.symm

/-- A subject's block repeats no course when the table's ids are unique. -/
lemma subjectBlock_nodup (perm : List Course → List Course) (db : List Course)
    (n : Nat) (subj : String) (hperm : ∀ l, (perm l).Perm l)
    (hnd : db.Nodup) : (subjectBlock perm db n subj).Nodup := by
  apply List.Nodup.sublist (List.take_sublist _ _)
  exact ((hperm _).symm).nodup (hnd.filter _)

/-- When a subject has fewer rows than the limit, its block is the whole
filtered table (in the randomised order). -/
lemma subjectBlock_perm_all (perm : List Course → List Course) (db : List Course)
    (n : Nat) (subj : String) (hperm : ∀ l, (perm l).Perm l)
    (hlt : (db.filter (fun c => c.subject == subj)).length < n) :
    (subjectBlock perm db n subj).Perm (db.filter (fun c => c.subject == subj)) := by
  unfold subjectBlock
  rw [List.take_of_length_le]
  · exact hperm _
  · rw [(hperm _).length_eq]
    omega

/-- C5: `get_random_courses(n)` serialises the gathered rows; the rows are the
four subject blocks concatenated in the fixed subject order; at most `4*n`
courses are returned, at most `n` per subject; every returned course carries
one of the four fixed subjects; no course repeats within a subject's block
(given unique course ids); and a subject with fewer than `n` courses
contributes all of its courses. -/
theorem random_courses_spec (perm : List Course → List Course) (db : List Course)
    (n : Nat) (hperm : ∀ l, (perm l).Perm l)
    (hids : (db.map Course.course_id).Nodup) :
    get_random_courses perm db n = (random_course_rows perm db n).map Course.to_dict
  ∧ random_course_rows perm db n =
      subjectBlock perm db n "Business Finance"
      ++ subjectBlock perm db n "Graphics Design"
      ++ subjectBlock perm db n "Web Development"
      ++ subjectBlock perm db n "Musical Instruments"
  ∧ (get_random_courses perm db n).length ≤ 4 * n
  ∧ (∀ subj,
      ((random_course_rows perm db n).filter (fun c => c.subject == subj)).length ≤ n)
  ∧ (∀ c ∈ random_course_rows perm db n, c.subject ∈ subjects)
  ∧ (∀ subj, (subjectBlock perm db n subj).Nodup)
  ∧ (∀ subj, (db.filter (fun c => c.subject == subj)).length < n →
      (subjectBlock perm db n subj).Perm (db.filter (fun c => c.subject == subj))) := by
  have hsplit : random_course_rows perm db n =
      subjectBlock perm db n "Business Finance"
      ++ subjectBlock perm db n "Graphics Design"
      ++ subjectBlock perm db n "Web Development"
      ++ subjectBlock perm db n "Musical Instruments" := by
    simp [random_course_rows, subjects, List.flatMap_cons, List.flatMap_nil,
      List.append_assoc]
  refine ⟨?_, hsplit, ?_, ?_, ?_, ?_, ?_⟩
  · simp [get_random_courses, random_course_rows, subjects, List.flatMap_cons,
      List.flatMap_nil, List.map_append]
  · have h1 := subjectBlock_length_le perm db n "Business Finance"
    have h2 := subjectBlock_length_le perm db n "Graphics Design"
    have h3 := subjectBlock_length_le perm db n "Web Development"
    have h4 := subjectBlock_length_le perm db n "Musical Instruments"
    simp only [get_random_courses, subjects, List.flatMap_cons, List.flatMap_nil,
      List.append_nil, List.length_append, List.length_map]
    omega
  · intro subj
    rw [hsplit, List.filter_append, List.filter_append, List.filter_append]
    simp only [List.length_append]
    have key : ∀ s', ((subjectBlock perm db n s').filter
        (fun c => c.subject == subj)).length ≤ if subj = s' then n else 0 := by
      intro s'
      by_cases h : subj = s'
      · rw [if_pos h]
        exact le_trans (List.length_filter_le _ _) (subjectBlock_length_le perm db n s')
      · rw [if_neg h, subjectBlock_filter_other perm db n s' subj hperm h]
        exact Nat.le_refl 0
    have k1 := key "Business Finance"
    have k2 := key "Graphics Design"
    have k3 := key "Web Development"
    have k4 := key "Musical Instruments"
    by_cases h1 : subj = "Business Finance"
    · subst h1
      rw [if_pos rfl] at k1
      rw [if_neg (by decide)] at k2 k3 k4
      omega
    by_cases h2 : subj = "Graphics Design"
    · subst h2
      rw [if_pos rfl] at k2
      rw [if_neg (by decide)] at k1 k3 k4
      omega
    by_cases h3 : subj = "Web Development"
    · subst h3
      rw [if_pos rfl] at k3
      rw [if_neg (by decide)] at k1 k2 k4
      omega
    by_cases h4 : subj = "Musical Instruments"
    · subst h4
      rw [if_pos rfl] at k4
      rw [if_neg (by decide)] at k1 k2 k3
      omega
    rw [if_neg h1] at k1
    rw [if_neg h2] at k2
    rw [if_neg h3] at k3
    rw [if_neg h4] at k4
    omega
  · intro c hc
    rw [random_course_rows, List.mem_flatMap] at hc
    obtain ⟨subj, hs, hcb⟩ := hc
    rw [(mem_subjectBlock perm db n subj hperm c hcb).2]
    exact hs
  · intro subj
    exact subjectBlock_nodup perm db n subj hperm (List.Nodup.of_map _ hids)
  · intro subj hlt
    exact subjectBlock_perm_all perm db n subj hperm hlt

/-- A `filterMap` is the map of the resolving function over the sublist where
it resolves (keeping the order, skipping the rest). -/
lemma filterMap_as_filtered_map {α β : Type} (f : α → Option β) (d : β) :
    ∀ l : List α,
      l.filterMap f = (l.filter (fun a => (f a).isSome)).map (fun a => (f a).getD d)
  | [] => rfl
  | a :: t => by
    cases hfa : f a <;>
      simp [List.filterMap_cons, List.filter_cons, hfa,
        filterMap_as_filtered_map f d t]

/-- C6: `get_recommended_courses_by_course_id(course_id, n)` returns, in
order, the serialisation of each recommended id that matches a course,
silently skipping unmatched ids; as the lookup yields at most `n` ids, the
result has at most `n` elements. -/
theorem recommended_courses_spec (recs : Nat → Nat → List Nat) (db : List Course)
    (course_id n : Nat) (hlen : (recs course_id n).length ≤ n) :
    get_recommended_courses_by_course_id recs db course_id n =
      ((recs course_id n).filter
          (fun cid => (db.find? (fun c => c.course_id == cid)).isSome)).map
        (fun cid => ((db.find? (fun c => c.course_id == cid)).map Course.to_dict).getD [])
    ∧ (get_recommended_courses_by_course_id recs db course_id n).length ≤ n := by
  constructor
  · unfold get_recommended_courses_by_course_id
    rw [filterMap_as_filtered_map _ []]
    simp [Option.isSome_map]
  · exact le_trans (List.length_filterMap_le _ _) hlen

/-! Concrete fixtures used to evaluate the theorems on closed inputs. -/

/-- A stand-in for the external password hash. -/
def demoHash : JVal → String := fun _ => "hashed"

/-- A stand-in for the external password verifier: the password `"pw"`
matches the stored hash `"h1"`. -/
def demoVerify : JVal → String → Bool := fun p h => p.matchesStr "pw" && h == "h1"

/-- A user who has not completed onboarding. -/
def demoAlice : User := ⟨1, "alice", "alice@example.com", "h1", false, false⟩

/-- A user who has completed onboarding. -/
def demoBob : User := ⟨2, "bob", "bob@example.com", "h2", true, false⟩

/-- A small database: two users, one preference row for bob. -/
def demoState : DbState :=
  ⟨[demoAlice, demoBob], [⟨2, "subject", "Web Development"⟩], [], 3, 10, 100⟩

/-- A payload matching the onboarding preference schema. -/
def demoPrefBody : JVal :=
  JVal.jobj [("preferences", JVal.jobj
    [("subject", JVal.jarr [JVal.jstr "Web Development"]),
     ("level", JVal.jarr [JVal.jstr "Beginner"])])]

/-- A small course table with unique ids, two finance courses and one subject
outside the fixed list. -/
def demoCourses : List Course :=
  [⟨1, "Business Finance", "Intro Finance"⟩,
   ⟨2, "Business Finance", "Advanced Finance"⟩,
   ⟨3, "Graphics Design", "Design Basics"⟩,
   ⟨4, "Web Development", "Web 101"⟩,
   ⟨5, "Data Science", "ML"⟩]

/-- A stand-in recommendation lookup: three ids, one unmatched. -/
def demoRecs : Nat → Nat → List Nat := fun _ _ => [3, 99, 1]

/-! Theorems about the claims. -/

/-- C9: an authenticated `POST /interactions` whose body has both the
`course_id` and `interaction_type` keys but a falsy value for either one is
answered 400 `Missing course_id or interaction_type`, and the state — hence
the interaction table — is left unchanged. -/
theorem interaction_falsy_rejected (hashF : JVal → String)
    (verifyF : JVal → String → Bool) (s : DbState) (ident : String) (u : User)
    (fs : List (String × JVal)) (cv tv : JVal)
    (hu : findUserByUsername s (JVal.jstr ident) = some u)
    (hne : fs.isEmpty = false)
    (hck : (fs.find? (fun kv => kv.1 == "course_id")).isSome = true)
    (htk : (fs.find? (fun kv => kv.1 == "interaction_type")).isSome = true)
    (hc : (JVal.jobj fs).getKey "course_id" = cv)
    (ht : (JVal.jobj fs).getKey "interaction_type" = tv)
    (hfalsy : cv.truthy = false ∨ tv.truthy = false) :
    log_user_interaction (specServices hashF verifyF) s ident (some (JVal.jobj fs)) =
      .ok (⟨400, "error", "Missing course_id or interaction_type", JVal.jobj []⟩, s) := by
  have hdt : dataTruthy (some (JVal.jobj fs)) = true := by
    simp [dataTruthy, JVal.truthy, hne]
  rcases hfalsy with h | h <;>
    simp [log_user_interaction, specServices, hdt, getBody, hu, hc, ht, h]

/-- C9 witness: `course_id = 0` is falsy, so the request is rejected with the
400 envelope and the state is untouched. -/
theorem interaction_falsy_rejected_witness :
    log_user_interaction (specServices demoHash demoVerify) demoState "alice"
        (some (JVal.jobj [("course_id", JVal.jnum 0), ("interaction_type", JVal.jstr "view")])) =
      .ok (⟨400, "error", "Missing course_id or interaction_type", JVal.jobj []⟩, demoState) :=
  interaction_falsy_rejected demoHash demoVerify demoState "alice" demoAlice
    [("course_id", JVal.jnum 0), ("interaction_type", JVal.jstr "view")]
    (JVal.jnum 0) (JVal.jstr "view") rfl rfl rfl rfl rfl rfl (Or.inl rfl)

/-- C10: a `POST /login` whose body is a non-empty JSON object without a
`username` key is answered 404 `User not found` — the absent key reads as
`None`, which matches no stored username, so no password hash is found. -/
theorem login_missing_username_404 (hashF : JVal → String)
    (verifyF : JVal → String → Bool) (s : DbState) (fs : List (String × JVal))
    (hne : fs.isEmpty = false)
    (hnou : fs.find? (fun kv => kv.1 == "username") = none) :
    login_user (specServices hashF verifyF) s (some (JVal.jobj fs)) =
      .ok (⟨404, "error", "User not found", JVal.jobj []⟩, s) := by
  have hkey : (JVal.jobj fs).getKey "username" = JVal.jnull := by
    simp [JVal.getKey, hnou]
  have hfind : findUserByUsername s JVal.jnull = none := by
    apply List.find?_eq_none.mpr
    intro u _
    simp [JVal.matchesStr]
  simp only [login_user, specServices, dataTruthy, JVal.truthy, hne,
    Bool.not_false, getBody, hkey, hfind, Option.map_none]
  simp

/-- C10 witness: a body carrying only a password is answered 404. -/
theorem login_missing_username_404_witness :
    login_user (specServices demoHash demoVerify) demoState
        (some (JVal.jobj [("password", JVal.jstr "pw")])) =
      .ok (⟨404, "error", "User not found", JVal.jobj []⟩, demoState) :=
  login_missing_username_404 demoHash demoVerify demoState
    [("password", JVal.jstr "pw")] rfl rfl

/-- A payload that passes the preference schema is in particular a non-empty
object, hence truthy. -/
lemma validPref_truthy (body : Option JVal) (h : validPrefPayload body = true) :
    dataTruthy body = true := by
  cases body with
  | none => simp [validPrefPayload] at h
  | some v =>
    cases v with
    | jnull => simp [validPrefPayload] at h
    | jbool b => simp [validPrefPayload] at h
    | jnum n => simp [validPrefPayload] at h
    | jstr t => simp [validPrefPayload] at h
    | jarr xs => simp [validPrefPayload] at h
    | jobj fs =>
      cases fs with
      | nil => simp [validPrefPayload, List.find?] at h
      | cons a l => simp [dataTruthy, JVal.truthy]

/-- C2 counterexample: for a logged-in user who has not completed onboarding,
`POST /onboarding` with a missing body is answered 500, not 400 — the
`validate` call runs before the body check and inside the `try`, so the
`ValidationError` lands in the generic exception handler. -/
theorem json_body_onboarding_counterexample :
    complete_user_onboarding (specServices demoHash demoVerify) demoState "alice" none =
      .ok (⟨500, "error", "Error completing onboarding: " ++ prefSchemaMsg,
            JVal.jobj []⟩, demoState)
    ∧ (500 : Nat) ≠ 400 :=
  ⟨rfl, by decide⟩

/-- C2 amended: a missing or unparsable JSON body is answered 400
`No data provided` by `POST /register`, `POST /login` and `POST /interactions`;
`POST /onboarding`, however, validates the body against the schema before its
own body check and inside its `try` block, so for a user who has not yet
completed onboarding a missing body is answered 500 wrapping the
schema-validation error. -/
theorem json_body_rejection_amended (hashF : JVal → String)
    (verifyF : JVal → String → Bool) (s : DbState) (ident : String) (u : User)
    (body : Option JVal)
    (hb : dataTruthy body = false)
    (hu : findUserByUsername s (JVal.jstr ident) = some u)
    (hnotdone : u.onboarding_done = false) :
    register_user (specServices hashF verifyF) s body = .ok (noDataResp, s)
  ∧ login_user (specServices hashF verifyF) s body = .ok (noDataResp, s)
  ∧ log_user_interaction (specServices hashF verifyF) s ident body = .ok (noDataResp, s)
  ∧ complete_user_onboarding (specServices hashF verifyF) s ident body =
      .ok (⟨500, "error", "Error completing onboarding: " ++ prefSchemaMsg,
            JVal.jobj []⟩, s) := by
  have hv : validPrefPayload body = false := by
    cases hvp : validPrefPayload body
    · rfl
    · rw [validPref_truthy body hvp] at hb
      exact absurd hb (by simp)
  refine ⟨?_, ?_, ?_, ?_⟩
  · simp [register_user, hb]
  · simp [login_user, hb]
  · simp [log_user_interaction, hb]
  · simp [complete_user_onboarding, complete_onboarding_try, specServices, hu,
      hnotdone, validatePrefs, hv]

/-- C2 witness: the amended statement evaluated on a concrete store and a
missing body. -/
theorem json_body_rejection_amended_witness :
    register_user (specServices demoHash demoVerify) demoState none =
      .ok (noDataResp, demoState)
  ∧ login_user (specServices demoHash demoVerify) demoState none =
      .ok (noDataResp, demoState)
  ∧ log_user_interaction (specServices demoHash demoVerify) demoState "alice" none =
      .ok (noDataResp, demoState)
  ∧ complete_user_onboarding (specServices demoHash demoVerify) demoState "alice" none =
      .ok (⟨500, "error", "Error completing onboarding: " ++ prefSchemaMsg,
            JVal.jobj []⟩, demoState) :=
  json_body_rejection_amended demoHash demoVerify demoState "alice" demoAlice none
    rfl rfl rfl

/-- Flipping one user's onboarding flag does not move any user in the table
and does not change any username, so a username lookup that found `u` now
finds `u` with the flipped flag. -/
lemma findUser_after_flag_update (s : DbState) (ident : String) (u : User) (b : Bool)
    (hu : findUserByUsername s (JVal.jstr ident) = some u) :
    (s.users.map
        (fun x => if x.id == u.id then { x with onboarding_done := b } else x)).find?
        (fun x => (JVal.jstr ident).matchesStr x.username) =
      some { u with onboarding_done := b } := by
  rw [List.find?_map]
  have hp : ((fun x => (JVal.jstr ident).matchesStr x.username) ∘
      (fun (x : User) => if x.id == u.id then { x with onboarding_done := b } else x)) =
      (fun (x : User) => (JVal.jstr ident).matchesStr x.username) := by
    funext x
    simp only [Function.comp]
    split <;> rfl
  rw [hp]
  unfold findUserByUsername at hu
  rw [hu]
  simp

/-- Username lookup in the state left by a successful onboarding completion. -/
lemma findUser_onboardedState (s : DbState) (ident : String) (u : User) (data : JVal)
    (hu : findUserByUsername s (JVal.jstr ident) = some u) :
    findUserByUsername (onboardedState s u.id data) (JVal.jstr ident) =
      some { u with onboarding_done := true } :=
  findUser_after_flag_update s ident u true hu

/-- Username lookup in the state left by an onboarding reset. -/
lemma findUser_resetState (s : DbState) (ident : String) (u : User)
    (hu : findUserByUsername s (JVal.jstr ident) = some u) :
    findUserByUsername (resetState s u.id) (JVal.jstr ident) =
      some { u with onboarding_done := false } :=
  findUser_after_flag_update s ident u false hu

/-- C1: for a logged-in user, `POST /onboarding` answers 400
`Onboarding already completed` (state untouched) when `onboarding_done` is
already true; it succeeds (200) only when the flag was false; and after a
successful completion the stored flag is true, so a second attempt on the
same user is answered 400 with the state left unchanged. -/
theorem onboarding_gating_spec (hashF : JVal → String)
    (verifyF : JVal → String → Bool) (s : DbState) (ident : String) (u : User)
    (body : Option JVal)
    (hu : findUserByUsername s (JVal.jstr ident) = some u) :
    (u.onboarding_done = true →
      complete_user_onboarding (specServices hashF verifyF) s ident body =
        .ok (⟨400, "error", "Onboarding already completed", JVal.jobj u.to_dict⟩, s))
  ∧ (∀ r s1,
      complete_user_onboarding (specServices hashF verifyF) s ident body = .ok (r, s1) →
      r.code = 200 → u.onboarding_done = false)
  ∧ (u.onboarding_done = false → validPrefPayload body = true →
      ∃ r s1,
        complete_user_onboarding (specServices hashF verifyF) s ident body = .ok (r, s1)
        ∧ r.code = 200 ∧ r.status = "success"
        ∧ r.message = "Onboarding completed successfully"
        ∧ findUserByUsername s1 (JVal.jstr ident) = some { u with onboarding_done := true }
        ∧ complete_user_onboarding (specServices hashF verifyF) s1 ident body =
            .ok (⟨400, "error", "Onboarding already completed",
                  JVal.jobj ({ u with onboarding_done := true }).to_dict⟩, s1)) := by
  refine ⟨?_, ?_, ?_⟩
  · intro hdone
    simp [complete_user_onboarding, complete_onboarding_try, specServices, hu, hdone]
  · intro r s1 heq h200
    cases hdone : u.onboarding_done
    · rfl
    · have h400 : complete_user_onboarding (specServices hashF verifyF) s ident body =
          .ok (⟨400, "error", "Onboarding already completed", JVal.jobj u.to_dict⟩, s) := by
        simp [complete_user_onboarding, complete_onboarding_try, specServices, hu, hdone]
      rw [h400] at heq
      cases heq
      simp at h200
  · intro hdone hv
    have hval : validatePrefs body = Except.ok () := by simp [validatePrefs, hv]
    have hdt : dataTruthy body = true := validPref_truthy body hv
    have hfind : findUserByUsername (onboardedState s u.id (getBody body))
        (JVal.jstr ident) = some { u with onboarding_done := true } :=
      findUser_onboardedState s ident u (getBody body) hu
    have hrun : complete_user_onboarding (specServices hashF verifyF) s ident body =
        .ok (⟨200, "success", "Onboarding completed successfully",
          JVal.jobj
            [("user",
              match findUserById (onboardedState s u.id (getBody body)) u.id with
                | some w => JVal.jobj w.to_dict
                | none => JVal.jnull),
             ("preferences",
              JVal.jarr
                (((onboardedState s u.id (getBody body)).prefs.filter
                    (fun p => p.user_id == u.id)).map (fun p => JVal.jobj p.to_dict)))]⟩,
          onboardedState s u.id (getBody body)) := by
      simp [complete_user_onboarding, complete_onboarding_try, specServices, hu, hdone,
        hval, hdt, spec_complete_onboarding]
    have hsecond : complete_user_onboarding (specServices hashF verifyF)
        (onboardedState s u.id (getBody body)) ident body =
        .ok (⟨400, "error", "Onboarding already completed",
              JVal.jobj ({ u with onboarding_done := true }).to_dict⟩,
          onboardedState s u.id (getBody body)) := by
      simp [complete_user_onboarding, complete_onboarding_try, specServices, hfind]
    exact ⟨_, _, hrun, rfl, rfl, rfl, hfind, hsecond⟩

/-- C1 witness: alice (flag false) completes onboarding with a valid payload;
the run succeeds, the stored flag flips, and a second attempt is answered 400
with the state unchanged. -/
theorem onboarding_gating_spec_witness :
    ∃ r s1,
      complete_user_onboarding (specServices demoHash demoVerify) demoState "alice"
          (some demoPrefBody) = .ok (r, s1)
      ∧ r.code = 200 ∧ r.status = "success"
      ∧ r.message = "Onboarding completed successfully"
      ∧ findUserByUsername s1 (JVal.jstr "alice") =
          some { demoAlice with onboarding_done := true }
      ∧ complete_user_onboarding (specServices demoHash demoVerify) s1 "alice"
          (some demoPrefBody) =
        .ok (⟨400, "error", "Onboarding already completed",
              JVal.jobj ({ demoAlice with onboarding_done := true }).to_dict⟩, s1) :=
  (onboarding_gating_spec demoHash demoVerify demoState "alice" demoAlice
    (some demoPrefBody) rfl).2.2 rfl rfl

/-- C8: logging an interaction appends exactly one row for the user, and
`GET /me` then lists the user's interactions with that row included; every
interaction dict shown by `/me` is the stored dict with the `user_id` key
removed and every other key (`id`, `course_id`, `interaction_type`,
`timestamp`) preserved. -/
theorem interaction_me_roundtrip (hashF : JVal → String)
    (verifyF : JVal → String → Bool) (s : DbState) (ident : String) (u : User)
    (data : JVal)
    (hu : findUserByUsername s (JVal.jstr ident) = some u)
    (hd : data.truthy = true)
    (hc : (data.getKey "course_id").truthy = true)
    (ht : (data.getKey "interaction_type").truthy = true) :
    ∃ (i : Interaction) (s1 : DbState),
      i.user_id = u.id
      ∧ i.course_id = data.getKey "course_id"
      ∧ i.interaction_type = data.getKey "interaction_type"
      ∧ s1.interactions = s.interactions ++ [i]
      ∧ log_user_interaction (specServices hashF verifyF) s ident (some data) =
          .ok (⟨201, "success", "Interaction logged successfully",
                JVal.jobj i.to_dict⟩, s1)
      ∧ get_current_user (specServices hashF verifyF) s1 ident =
          .ok (⟨200, "success", "User retrieved successfully",
            JVal.jobj
              [("user", JVal.jobj u.to_dict),
               ("preferences",
                JVal.jarr ((s1.prefs.filter (fun p => p.user_id == u.id)).map
                  (fun p => JVal.jobj p.to_dict))),
               ("interactions",
                JVal.jarr ((s1.interactions.filter (fun x => x.user_id == u.id)).map
                  (fun x => JVal.jobj (x.to_dict.filter (fun kv => kv.1 != "user_id")))))]⟩,
            s1)
      ∧ JVal.jobj (i.to_dict.filter (fun kv => kv.1 != "user_id"))
          ∈ (s1.interactions.filter (fun x => x.user_id == u.id)).map
              (fun x => JVal.jobj (x.to_dict.filter (fun kv => kv.1 != "user_id")))
      ∧ (∀ x : Interaction,
          x.to_dict.filter (fun kv => kv.1 != "user_id") =
            [("id", JVal.jnum x.id), ("course_id", x.course_id),
             ("interaction_type", x.interaction_type),
             ("timestamp", JVal.jnum x.timestamp)]) := by
  have hdt : dataTruthy (some data) = true := hd
  refine ⟨⟨s.nextInteractionId, u.id, data.getKey "course_id",
      data.getKey "interaction_type", s.clock⟩,
    { s with
      interactions := s.interactions ++
        [⟨s.nextInteractionId, u.id, data.getKey "course_id",
          data.getKey "interaction_type", s.clock⟩],
      nextInteractionId := s.nextInteractionId + 1 },
    rfl, rfl, rfl, rfl, ?_, ?_, ?_, fun x => rfl⟩
  · simp [log_user_interaction, specServices, hdt, getBody, hu, hc, ht,
      spec_add_user_interaction]
  · have hu1 : findUserByUsername
        { s with
          interactions := s.interactions ++
            [⟨s.nextInteractionId, u.id, data.getKey "course_id",
              data.getKey "interaction_type", s.clock⟩],
          nextInteractionId := s.nextInteractionId + 1 }
        (JVal.jstr ident) = some u := hu
    simp [get_current_user, me_try, specServices, hu1]
  · apply List.mem_map_of_mem
    exact List.mem_filter.mpr
      ⟨List.mem_append_right _ (List.mem_singleton_self _), by simp⟩

/-- C8 witness: alice logs a `view` of course 7 and `/me` lists it with the
`user_id` key stripped. -/
theorem interaction_me_roundtrip_witness :
    ∃ (i : Interaction) (s1 : DbState),
      i.user_id = demoAlice.id
      ∧ i.course_id = (JVal.jobj [("course_id", JVal.jnum 7),
          ("interaction_type", JVal.jstr "view")]).getKey "course_id"
      ∧ i.interaction_type = (JVal.jobj [("course_id", JVal.jnum 7),
          ("interaction_type", JVal.jstr "view")]).getKey "interaction_type"
      ∧ s1.interactions = demoState.interactions ++ [i]
      ∧ log_user_interaction (specServices demoHash demoVerify) demoState "alice"
          (some (JVal.jobj [("course_id", JVal.jnum 7),
            ("interaction_type", JVal.jstr "view")])) =
          .ok (⟨201, "success", "Interaction logged successfully",
                JVal.jobj i.to_dict⟩, s1)
      ∧ get_current_user (specServices demoHash demoVerify) s1 "alice" =
          .ok (⟨200, "success", "User retrieved successfully",
            JVal.jobj
              [("user", JVal.jobj demoAlice.to_dict),
               ("preferences",
                JVal.jarr ((s1.prefs.filter (fun p => p.user_id == demoAlice.id)).map
                  (fun p => JVal.jobj p.to_dict))),
               ("interactions",
                JVal.jarr ((s1.interactions.filter
                    (fun x => x.user_id == demoAlice.id)).map
                  (fun x => JVal.jobj (x.to_dict.filter (fun kv => kv.1 != "user_id")))))]⟩,
            s1)
      ∧ JVal.jobj (i.to_dict.filter (fun kv => kv.1 != "user_id"))
          ∈ (s1.interactions.filter (fun x => x.user_id == demoAlice.id)).map
              (fun x => JVal.jobj (x.to_dict.filter (fun kv => kv.1 != "user_id")))
      ∧ (∀ x : Interaction,
          x.to_dict.filter (fun kv => kv.1 != "user_id") =
            [("id", JVal.jnum x.id), ("course_id", x.course_id),
             ("interaction_type", x.interaction_type),
             ("timestamp", JVal.jnum x.timestamp)]) :=
  interaction_me_roundtrip demoHash demoVerify demoState "alice" demoAlice
    (JVal.jobj [("course_id", JVal.jnum 7), ("interaction_type", JVal.jstr "view")])
    rfl rfl rfl rfl

/-- C4: for a well-formed `POST /login` body, an unknown username is answered
404 `User not found`; a known user (with a non-empty stored hash) whose
password fails verification is answered 401 `Invalid password`; and correct
credentials are answered 200 with an access token issued for the user's
identity with an expiry of exactly `timedelta(days=3)` = 259200 seconds. -/
theorem login_outcomes_spec (hashF : JVal → String) (verifyF : JVal → String → Bool)
    (s : DbState) (body : JVal) (hb : body.truthy = true) :
    (findUserByUsername s (body.getKey "username") = none →
      login_user (specServices hashF verifyF) s (some body) =
        .ok (⟨404, "error", "User not found", JVal.jobj []⟩, s))
  ∧ (∀ u, findUserByUsername s (body.getKey "username") = some u →
      u.password_hash ≠ "" →
      verifyF (body.getKey "password") u.password_hash = false →
      login_user (specServices hashF verifyF) s (some body) =
        .ok (⟨401, "error", "Invalid password", JVal.jobj []⟩, s))
  ∧ (∀ u, findUserByUsername s (body.getKey "username") = some u →
      u.password_hash ≠ "" →
      verifyF (body.getKey "password") u.password_hash = true →
      login_user (specServices hashF verifyF) s (some body) =
        .ok (⟨200, "success", "Login successful",
          JVal.jobj
            [("access_token",
              JVal.jobj [("identity", JVal.jstr u.username),
                         ("expires_delta_seconds", JVal.jnum (timedeltaDays 3))]),
             ("user",
              JVal.jobj [("id", JVal.jnum u.id),
                         ("username", JVal.jstr u.username),
                         ("email", JVal.jstr u.email)])]⟩, s)
      ∧ timedeltaDays 3 = 3 * 24 * 60 * 60) := by
  have hdt : dataTruthy (some body) = true := hb
  refine ⟨?_, ?_, ?_⟩
  · intro hnone
    simp [login_user, specServices, hdt, getBody, hnone]
  · intro u hu hne hv
    simp [login_user, specServices, hdt, getBody, hu, hne, hv]
  · intro u hu hne hv
    refine ⟨?_, by decide⟩
    simp [login_user, specServices, hdt, getBody, hu, hne, hv, spec_create_access_token]

/-- C4 witness: alice logs in with the matching password and receives the
200 envelope with a token expiring in exactly three days. -/
theorem login_outcomes_spec_witness :
    login_user (specServices demoHash demoVerify) demoState
        (some (JVal.jobj [("username", JVal.jstr "alice"),
                          ("password", JVal.jstr "pw")])) =
      .ok (⟨200, "success", "Login successful",
        JVal.jobj
          [("access_token",
            JVal.jobj [("identity", JVal.jstr demoAlice.username),
                       ("expires_delta_seconds", JVal.jnum (timedeltaDays 3))]),
           ("user",
            JVal.jobj [("id", JVal.jnum demoAlice.id),
                       ("username", JVal.jstr demoAlice.username),
                       ("email", JVal.jstr demoAlice.email)])]⟩, demoState)
    ∧ timedeltaDays 3 = 3 * 24 * 60 * 60 :=
  (login_outcomes_spec demoHash demoVerify demoState
      (JVal.jobj [("username", JVal.jstr "alice"), ("password", JVal.jstr "pw")])
      rfl).2.2 demoAlice rfl (by decide) rfl

/-- Rows kept by the reset's delete cannot belong to the reset user. -/
lemma prefs_empty_after_reset (l : List PrefRow) (uid : Nat) :
    (l.filter (fun p => p.user_id != uid)).filter (fun p => p.user_id == uid) = [] := by
  induction l with
  | nil => rfl
  | cons a t ih => by_cases h : a.user_id = uid <;> simp [List.filter_cons, h, ih]

/-- C7: for a logged-in user, `DELETE /onboarding` answers 400
`Onboarding not completed yet` (state untouched) when `onboarding_done` is
false; it succeeds (200) only when the flag was true; and after a successful
reset the stored flag is false and the user's preference rows are gone. -/
theorem onboarding_reset_spec (hashF : JVal → String)
    (verifyF : JVal → String → Bool) (s : DbState) (ident : String) (u : User)
    (hu : findUserByUsername s (JVal.jstr ident) = some u) :
    (u.onboarding_done = false →
      reset_user_onboarding (specServices hashF verifyF) s ident =
        .ok (⟨400, "error", "Onboarding not completed yet", JVal.jobj u.to_dict⟩, s))
  ∧ (∀ r s1,
      reset_user_onboarding (specServices hashF verifyF) s ident = .ok (r, s1) →
      r.code = 200 → u.onboarding_done = true)
  ∧ (u.onboarding_done = true →
      ∃ r,
        reset_user_onboarding (specServices hashF verifyF) s ident =
          .ok (r, resetState s u.id)
        ∧ r.code = 200 ∧ r.status = "success"
        ∧ r.message = "Onboarding reset successfully"
        ∧ findUserByUsername (resetState s u.id) (JVal.jstr ident) =
            some { u with onboarding_done := false }
        ∧ (resetState s u.id).prefs.filter (fun p => p.user_id == u.id) = []) := by
  refine ⟨?_, ?_, ?_⟩
  · intro hnot
    simp [reset_user_onboarding, reset_onboarding_try, specServices, hu, hnot]
  · intro r s1 heq h200
    cases hdone : u.onboarding_done
    · have h400 : reset_user_onboarding (specServices hashF verifyF) s ident =
          .ok (⟨400, "error", "Onboarding not completed yet", JVal.jobj u.to_dict⟩, s) := by
        simp [reset_user_onboarding, reset_onboarding_try, specServices, hu, hdone]
      rw [h400] at heq
      cases heq
      simp at h200
    · rfl
  · intro hdone
    have hfind : findUserByUsername (resetState s u.id) (JVal.jstr ident) =
        some { u with onboarding_done := false } :=
      findUser_resetState s ident u hu
    have hprefs : (resetState s u.id).prefs.filter (fun p => p.user_id == u.id) = [] :=
      prefs_empty_after_reset s.prefs u.id
    have hrun : reset_user_onboarding (specServices hashF verifyF) s ident =
        .ok (⟨200, "success", "Onboarding reset successfully",
          JVal.jobj
            [("user",
              match findUserById (resetState s u.id) u.id with
                | some w => JVal.jobj w.to_dict
                | none => JVal.jnull),
             ("preferences",
              JVal.jarr
                (((resetState s u.id).prefs.filter
                    (fun p => p.user_id == u.id)).map (fun p => JVal.jobj p.to_dict)))]⟩,
          resetState s u.id) := by
      simp [reset_user_onboarding, reset_onboarding_try, specServices, hu, hdone,
        spec_reset_onboarding]
    exact ⟨_, hrun, rfl, rfl, rfl, hfind, hprefs⟩

/-- C7 witness: bob (flag true) resets onboarding; the run succeeds, the
stored flag clears, and bob's preference rows are gone. -/
theorem onboarding_reset_spec_witness :
    ∃ r,
      reset_user_onboarding (specServices demoHash demoVerify) demoState "bob" =
        .ok (r, resetState demoState demoBob.id)
      ∧ r.code = 200 ∧ r.status = "success"
      ∧ r.message = "Onboarding reset successfully"
      ∧ findUserByUsername (resetState demoState demoBob.id) (JVal.jstr "bob") =
          some { demoBob with onboarding_done := false }
      ∧ (resetState demoState demoBob.id).prefs.filter
          (fun p => p.user_id == demoBob.id) = [] :=
  (onboarding_reset_spec demoHash demoVerify demoState "bob" demoBob rfl).2.2 rfl

/-- Services whose password-hash lookup raises, like a lost database
connection. -/
def demoFailingSvc : Services :=
  { specServices demoHash demoVerify with
      get_password_hash_by_username := fun _ _ => .error "db connection lost" }

/-- C3 counterexample: `login_user` has no `try` block, so when the hash
lookup raises, the exception escapes the handler uncaught — no 500 envelope
is produced by the route. -/
theorem internal_error_login_counterexample :
    login_user demoFailingSvc demoState
        (some (JVal.jobj [("username", JVal.jstr "alice"),
                          ("password", JVal.jstr "pw")])) =
      .error ("db connection lost", demoState) := rfl

/-- C3 amended: a service exception raised inside a route's `try` block is
answered with the 500 envelope wrapping the raw error text (register, `/me`,
both onboarding routes, interaction delete, and the `add` step of
`POST /interactions`); but `POST /login` has no `try` block at all, and the
user lookup of `POST /interactions` runs before its `try` block, so there the
exception escapes the handler uncaught. -/
theorem internal_error_envelopes_amended (svc svc2 : Services) (s : DbState)
    (ident : String) (u : User) (body : JVal) (e : String) (iid : Nat)
    (hb : body.truthy = true)
    (hval : validRegisterPayload body = true)
    (h1 : svc.get_user_by_username s (JVal.jstr ident) = .error e)
    (h2 : svc.create_user s (body.getKey "username") (body.getKey "email")
            (body.getKey "password") = .error e)
    (h3 : svc.get_password_hash_by_username s (body.getKey "username") = .error e)
    (h4 : svc2.get_user_by_username s (JVal.jstr ident) = .ok (some u))
    (h5 : svc2.add_user_interaction s u.id (body.getKey "course_id")
            (body.getKey "interaction_type") = .error e)
    (hc : (body.getKey "course_id").truthy = true)
    (ht : (body.getKey "interaction_type").truthy = true) :
    register_user svc s (some body) =
      .ok (⟨500, "error", "Error creating user: " ++ e, JVal.jobj []⟩, s)
  ∧ get_current_user svc s ident =
      .ok (⟨500, "error", "Error retrieving user: " ++ e, JVal.jobj []⟩, s)
  ∧ complete_user_onboarding svc s ident (some body) =
      .ok (⟨500, "error", "Error completing onboarding: " ++ e, JVal.jobj []⟩, s)
  ∧ reset_user_onboarding svc s ident =
      .ok (⟨500, "error", "Error resetting onboarding: " ++ e, JVal.jobj []⟩, s)
  ∧ delete_user_interaction svc s ident iid =
      .ok (⟨500, "error", "Error deleting interaction: " ++ e, JVal.jobj []⟩, s)
  ∧ log_user_interaction svc2 s ident (some body) =
      .ok (⟨500, "error", "Error logging interaction: " ++ e, JVal.jobj []⟩, s)
  ∧ login_user svc s (some body) = .error (e, s)
  ∧ log_user_interaction svc s ident (some body) = .error (e, s) := by
  have hdt : dataTruthy (some body) = true := hb
  refine ⟨?_, ?_, ?_, ?_, ?_, ?_, ?_, ?_⟩
  · simp [register_user, hdt, getBody, hval, h2]
  · simp [get_current_user, me_try, h1]
  · simp [complete_user_onboarding, complete_onboarding_try, h1]
  · simp [reset_user_onboarding, reset_onboarding_try, h1]
  · simp [delete_user_interaction, delete_interaction_try, h1]
  · simp [log_user_interaction, hdt, getBody, h4, hc, ht, h5]
  · simp [login_user, hdt, getBody, h3]
  · simp [log_user_interaction, hdt, getBody, h1]

/-- Services that raise in every lookup the amended C3 statement exercises. -/
def demoBrokenSvc : Services :=
  { specServices demoHash demoVerify with
      get_user_by_username := fun _ _ => .error "boom",
      create_user := fun _ _ _ _ => .error "boom",
      get_password_hash_by_username := fun _ _ => .error "boom" }

/-- Services whose interaction insert raises. -/
def demoAddFailSvc : Services :=
  { specServices demoHash demoVerify with
      add_user_interaction := fun _ _ _ _ => .error "boom" }

/-- A body usable by register and interaction logging alike. -/
def demoRichBody : JVal :=
  JVal.jobj [("username", JVal.jstr "carol"), ("email", JVal.jstr "c@example.com"),
             ("password", JVal.jstr "pw"), ("course_id", JVal.jnum 7),
             ("interaction_type", JVal.jstr "view")]

/-- C3 witness: the amended statement evaluated on concrete failing services. -/
theorem internal_error_envelopes_amended_witness :
    register_user demoBrokenSvc demoState (some demoRichBody) =
      .ok (⟨500, "error", "Error creating user: " ++ "boom", JVal.jobj []⟩, demoState)
  ∧ get_current_user demoBrokenSvc demoState "alice" =
      .ok (⟨500, "error", "Error retrieving user: " ++ "boom", JVal.jobj []⟩, demoState)
  ∧ complete_user_onboarding demoBrokenSvc demoState "alice" (some demoRichBody) =
      .ok (⟨500, "error", "Error completing onboarding: " ++ "boom", JVal.jobj []⟩, demoState)
  ∧ reset_user_onboarding demoBrokenSvc demoState "alice" =
      .ok (⟨500, "error", "Error resetting onboarding: " ++ "boom", JVal.jobj []⟩, demoState)
  ∧ delete_user_interaction demoBrokenSvc demoState "alice" 1 =
      .ok (⟨500, "error", "Error deleting interaction: " ++ "boom", JVal.jobj []⟩, demoState)
  ∧ log_user_interaction demoAddFailSvc demoState "alice" (some demoRichBody) =
      .ok (⟨500, "error", "Error logging interaction: " ++ "boom", JVal.jobj []⟩, demoState)
  ∧ login_user demoBrokenSvc demoState (some demoRichBody) = .error ("boom", demoState)
  ∧ log_user_interaction demoBrokenSvc demoState "alice" (some demoRichBody) =
      .error ("boom", demoState) :=
  internal_error_envelopes_amended demoBrokenSvc demoAddFailSvc demoState "alice"
    demoAlice demoRichBody "boom" 1 rfl rfl rfl rfl rfl rfl rfl rfl rfl

/-- C5 witness: with the identity ordering and the demo table, the returned
dicts are the serialised gathered rows and number at most `4 * 2`. -/
theorem random_courses_spec_witness :
    get_random_courses (fun l => l) demoCourses 2 =
      (random_course_rows (fun l => l) demoCourses 2).map Course.to_dict
    ∧ (get_random_courses (fun l => l) demoCourses 2).length ≤ 4 * 2 :=
  ⟨(random_courses_spec (fun l => l) demoCourses 2 (fun l => List.Perm.refl l)
      (by decide)).1,
   (random_courses_spec (fun l => l) demoCourses 2 (fun l => List.Perm.refl l)
      (by decide)).2.2.1⟩

/-- C6 witness: three recommended ids, one unmatched, resolved in order with
at most three results. -/
theorem recommended_courses_spec_witness :
    get_recommended_courses_by_course_id demoRecs demoCourses 1 3 =
      ((demoRecs 1 3).filter
          (fun cid => (demoCourses.find? (fun c => c.course_id == cid)).isSome)).map
        (fun cid =>
          ((demoCourses.find? (fun c => c.course_id == cid)).map Course.to_dict).getD [])
    ∧ (get_recommended_courses_by_course_id demoRecs demoCourses 1 3).length ≤ 3 :=
  recommended_courses_spec demoRecs demoCourses 1 3 (by decide)
